import Mathlib

/-!
Verification development for the BaleyUI Python SDK
(`packages/python-sdk/baleyui`): a shallow embedding of the execution
lifecycle client (`client.py`), entity model (`types.py`) and error
taxonomy (`errors.py`), together with theorems checking the
claims of the specification against the embedded code.

Modelling conventions:
* JSON object payloads the code never inspects are opaque
  (`Option String`); timestamps are abstract instants (`Nat`).
* The JSON library and pydantic are external collaborators: decoding a
  stream payload is a parameter `decode : String → DecodeResult` whose
  result distinguishes the two failure stages the code distinguishes
  (`json.loads` raising `json.JSONDecodeError`, caught at
  client.py:337, versus `ExecutionEvent(**event_data)` raising, which
  is not caught).
* Raised Python exceptions are values of `PyExc`; a generator that has
  yielded some events and then raises is `StreamOutcome.raised`.
* Real time in `wait_for_completion` is idealised as the spec does: a
  poll is instantaneous and `time.sleep(poll_interval)` advances the
  clock by exactly one unit (one second), so the elapsed time equals
  the number of sleeps performed.
-/

namespace Baleyui

/-- Enum `ExecutionStatus` from types.py: the five status values. -/
inductive ExecutionStatus where
  | pending
  | running
  | completed
  | failed
  | cancelled
deriving DecidableEq

/-- The `.value` of the Python `str`-enum `ExecutionStatus`. -/
def ExecutionStatus.value : ExecutionStatus → String
  | .pending => "pending"
  | .running => "running"
  | .completed => "completed"
  | .failed => "failed"
  | .cancelled => "cancelled"

/-- Record `Execution` from types.py. Opaque dict payloads are `Option String`,
datetimes are abstract `Nat` instants. -/
structure Execution where
  id : String
  flow_id : Option String := none
  block_id : Option String := none
  status : ExecutionStatus
  input : Option String := none
  output : Option String := none
  error : Option String := none
  started_at : Option Nat := none
  completed_at : Option Nat := none
  duration : Option Int := none
  created_at : Nat := 0
deriving DecidableEq

/-- Record `ExecutionEvent` from types.py. -/
structure ExecutionEvent where
  type : String
  execution_id : String
  node_id : Option String := none
  data : Option String := none
  timestamp : Nat := 0
  index : Nat := 0
deriving DecidableEq

/-- The error taxonomy of errors.py: one constructor per exception
class, carrying exactly the constructor arguments the Python class
stores beyond the base-class fields. -/
inductive SDKError where
  | baleyUIError (message : String) (status_code : Option Nat)
      (code : Option String) (details : Option String)
  | authenticationError (message : String)
  | permissionError (message : String)
  | notFoundError (resource : String) (resource_id : String)
  | validationError (message : String) (details : Option String)
  | rateLimitError (retry_after : Option Int)
  | timeoutError (timeout : Int)
  | connectionError (message : String)
deriving DecidableEq

/-- The `message` attribute each errors.py constructor passes to the
base class. -/
def SDKError.message : SDKError → String
  | .baleyUIError m _ _ _ => m
  | .authenticationError m => m
  | .permissionError m => m
  | .notFoundError r rid => r ++ " not found: " ++ rid
  | .validationError m _ => m
  | .rateLimitError _ => "Rate limit exceeded"
  | .timeoutError t => "Execution timed out after " ++ toString t ++ "ms"
  | .connectionError m => m

/-- The `status_code` attribute each errors.py constructor sets. -/
def SDKError.status_code : SDKError → Option Nat
  | .baleyUIError _ sc _ _ => sc
  | .authenticationError _ => some 401
  | .permissionError _ => some 403
  | .notFoundError _ _ => some 404
  | .validationError _ _ => some 400
  | .rateLimitError _ => some 429
  | .timeoutError _ => none
  | .connectionError _ => none

/-- The `code` attribute each errors.py constructor sets. -/
def SDKError.code : SDKError → Option String
  | .baleyUIError _ _ c _ => c
  | .authenticationError _ => some ("authentication_error")
  | .permissionError _ => some ("permission_error")
  | .notFoundError _ _ => some ("not_found")
  | .validationError _ _ => some ("validation_error")
  | .rateLimitError _ => some ("rate_limit_error")
  | .timeoutError _ => some ("timeout_error")
  | .connectionError _ => some ("connection_error")

/-- The `details` attribute each errors.py constructor sets. -/
def SDKError.details : SDKError → Option String
  | .baleyUIError _ _ _ d => d
  | .validationError _ d => d
  | _ => none

/-- A raised Python exception as observed by the SDK caller: either a
classified `SDKError` from errors.py, or a raw exception escaping the
handling in the SDK. -/
inductive PyExc where
  | sdk (e : SDKError)
  | validationError
  | jsonDecodeError
  | valueError
  | keyError (key : String)
  | raw (desc : String)
deriving DecidableEq

/-- Result of decoding one `data:` payload, mirroring the two stages of
client.py:331-332: `json.loads(data)` (whose `json.JSONDecodeError` is
caught) then `ExecutionEvent(**event_data)` (whose pydantic
`ValidationError` or `TypeError` is not caught). -/
inductive DecodeResult where
  | jsonError
  | shapeError
  | ok (event : ExecutionEvent)
deriving DecidableEq

/-- Outcome of consuming the stream generator to exhaustion: it either
finishes normally after yielding `evs`, or raises an exception after
yielding `evs`. -/
inductive StreamOutcome where
  | events (evs : List ExecutionEvent)
  | raised (evs : List ExecutionEvent) (exc : PyExc)
deriving DecidableEq

/-- The significant-line marker of client.py:324 (`"data: "`). -/
def dataTag : String := "data: "

/-- The end-of-stream sentinel payload of client.py:327 (`"[DONE]"`). -/
def doneSentinel : String := "[DONE]"

/-- The terminal event type tags of client.py:335. -/
def terminalEventTypes : List String := ["execution_complete", "execution_error"]

/-- Model of `httpx.Response.is_success`: status code in [200, 300). -/
def is_success (status : Nat) : Bool := decide (200 ≤ status ∧ status < 300)

/-- Python `line.startswith(tag)`: a code-point prefix test (Python
strings are sequences of code points). -/
def pyStartswith (line tag : String) : Bool := tag.data.isPrefixOf line.data

/-- Python `line[n:]`: drop the first `n` code points. -/
def pyDrop (line : String) (n : Nat) : String := String.mk (line.data.drop n)

/-- The line loop of `ExecutionsAPI.stream` (client.py:323-338): for
each line, if it starts with the data tag, take the payload after the
first 6 characters; the sentinel ends the generator; a payload whose
JSON decoding fails is skipped; a payload whose event construction
fails raises out of the generator; a decoded event is yielded, and if
its type tag is terminal the generator returns. -/
def streamLoop (decode : String → DecodeResult) : List String → StreamOutcome
  | [] => .events []
  | line :: rest =>
    if pyStartswith line dataTag then
      let data := pyDrop line 6
      if data = doneSentinel then .events []
      else
        match decode data with
        | .jsonError => streamLoop decode rest
        | .shapeError => .raised [] .validationError
        | .ok event =>
          if event.type ∈ terminalEventTypes then .events [event]
          else
            match streamLoop decode rest with
            | .events evs => .events (event :: evs)
            | .raised evs exc => .raised (event :: evs) exc
    else streamLoop decode rest

/-- The streaming HTTP response as the line protocol sees it: status,
reason phrase, and the body as a sequence of text lines. -/
structure StreamResponse where
  status_code : Nat
  reason_phrase : String
  lines : List String
deriving DecidableEq

/-- Function `ExecutionsAPI.stream` (client.py:293-338) after the connection is
open: a non-success status raises `BaleyUIError(message, status_code)`
before any event is produced; otherwise the line loop runs. -/
def stream (decode : String → DecodeResult) (resp : StreamResponse) : StreamOutcome :=
  if is_success resp.status_code then streamLoop decode resp.lines
  else
    .raised []
      (.sdk (.baleyUIError ("Failed to stream execution: " ++ resp.reason_phrase)
        (some resp.status_code) none none))

/-- The line loop of `ExecutionsAPI.stream_async` (client.py:373-388),
translated separately from its own source text. -/
def streamLoopAsync (decode : String → DecodeResult) : List String → StreamOutcome
  | [] => .events []
  | line :: rest =>
    if pyStartswith line dataTag then
      let data := pyDrop line 6
      if data = doneSentinel then .events []
      else
        match decode data with
        | .jsonError => streamLoopAsync decode rest
        | .shapeError => .raised [] .validationError
        | .ok event =>
          if event.type ∈ terminalEventTypes then .events [event]
          else
            match streamLoopAsync decode rest with
            | .events evs => .events (event :: evs)
            | .raised evs exc => .raised (event :: evs) exc
    else streamLoopAsync decode rest

/-- Function `ExecutionsAPI.stream_async` (client.py:340-388) after the
connection is open. -/
def stream_async (decode : String → DecodeResult) (resp : StreamResponse) : StreamOutcome :=
  if is_success resp.status_code then streamLoopAsync decode resp.lines
  else
    .raised []
      (.sdk (.baleyUIError ("Failed to stream execution: " ++ resp.reason_phrase)
        (some resp.status_code) none none))

/-- A line that carries one decodable, non-sentinel event payload under
the given decoder. -/
def encodesEvent (decode : String → DecodeResult) (line : String) (e : ExecutionEvent) : Prop :=
  pyStartswith line dataTag = true ∧ pyDrop line 6 ≠ doneSentinel ∧ decode (pyDrop line 6) = .ok e

instance (decode : String → DecodeResult) (line : String) (e : ExecutionEvent) :
    Decidable (encodesEvent decode line e) := by
  unfold encodesEvent
  infer_instance

/-- Model of Python `int(s)` on a string: surrounding whitespace
stripped, optional sign, decimal digits; `none` when `int` would raise
`ValueError`. -/
def digitsToNat (cs : List Char) : Option Nat :=
  match cs with
  | [] => none
  | _ =>
    if cs.all Char.isDigit then
      some (cs.foldl (fun acc c => acc * 10 + (c.toNat - 48)) 0)
    else none

/-- Strip leading and trailing whitespace from a code-point list. -/
def pyStrip (cs : List Char) : List Char :=
  ((cs.dropWhile Char.isWhitespace).reverse.dropWhile Char.isWhitespace).reverse

/-- Python `int(s)` for a text string. -/
def pyInt (s : String) : Option Int :=
  match pyStrip s.data with
  | [] => none
  | c :: rest =>
    if c = '-' then (digitsToNat rest).map (fun n => -(n : Int))
    else if c = '+' then (digitsToNat rest).map (fun n => (n : Int))
    else (digitsToNat (c :: rest)).map (fun n => (n : Int))

/-- The parsed JSON body of a non-streaming response, projected to the
keys `_handle_response` reads (`error`, `details`); `none` on a field
models the key being absent. -/
structure JsonBody where
  error : Option String := none
  details : Option String := none
deriving DecidableEq

/-- Equality on request results is decidable. -/
instance {e a : Type} [DecidableEq e] [DecidableEq a] : DecidableEq (Except e a)
  | .ok x, .ok y => decidable_of_iff (x = y) (by simp)
  | .ok _, .error _ => isFalse (by simp)
  | .error _, .ok _ => isFalse (by simp)
  | .error x, .error y => decidable_of_iff (x = y) (by simp)

/-- A non-streaming `httpx.Response` as `_handle_response` sees it:
status code, reason phrase, the body (`none` when `response.json()`
raises `json.JSONDecodeError`), and the `Retry-After` header. -/
structure Response where
  status_code : Nat
  reason_phrase : String := ""
  body : Option JsonBody := none
  retry_after : Option String := none
deriving DecidableEq

/-- Expression `error_data.get("error", response.reason_phrase)` of
client.py:117-122: the `error` value of the body when the body parsed and
has the key, else the reason phrase. -/
def serverMessage (r : Response) : String :=
  match r.body with
  | some b => b.error.getD r.reason_phrase
  | none => r.reason_phrase

/-- Expression `error_data.get("details")` of client.py:123. -/
def serverDetails (r : Response) : Option String :=
  r.body.bind JsonBody.details

/-- Method `BaleyUI._handle_response` (client.py:112-137). A success returns
the parsed body (raising `json.JSONDecodeError` if it does not parse);
otherwise the status code selects the classified error. On 429 the
code computes `int(retry_after) if retry_after else None`: an empty or
absent header gives `None`, and a non-numeric header makes `int`
raise `ValueError`, which nothing catches. -/
def handle_response (r : Response) : Except PyExc JsonBody :=
  if is_success r.status_code then
    match r.body with
    | some b => .ok b
    | none => .error .jsonDecodeError
  else
    if r.status_code = 401 then .error (.sdk (.authenticationError (serverMessage r)))
    else if r.status_code = 403 then .error (.sdk (.permissionError (serverMessage r)))
    else if r.status_code = 404 then .error (.sdk (.notFoundError ("Resource") ("unknown")))
    else if r.status_code = 400 then
      .error (.sdk (.validationError (serverMessage r) (serverDetails r)))
    else if r.status_code = 429 then
      match r.retry_after with
      | none => .error (.sdk (.rateLimitError none))
      | some s =>
        if s = "" then .error (.sdk (.rateLimitError none))
        else
          match pyInt s with
          | some n => .error (.sdk (.rateLimitError (some n)))
          | none => .error .valueError
    else
      .error (.sdk (.baleyUIError (serverMessage r) (some r.status_code)
        (some ("api_error")) (serverDetails r)))

/-- What the underlying `httpx` call inside `BaleyUI._request` does:
it returns a response, or raises `httpx.ConnectError`,
`httpx.TimeoutException`, or some other exception (e.g.
`httpx.ReadError`) that the `except` clauses do not name. -/
inductive TransportOutcome where
  | response (r : Response)
  | connectError (msg : String)
  | timeoutException
  | otherException (desc : String)
deriving DecidableEq

/-- Method `BaleyUI._request` (client.py:97-110); `timeout_ms` is the
configured `int(self._timeout * 1000)`. Only `httpx.ConnectError` and
`httpx.TimeoutException` are caught and classified; any other raised
exception propagates raw. -/
def pyRequest (timeout_ms : Int) (o : TransportOutcome) : Except PyExc JsonBody :=
  match o with
  | .response r => handle_response r
  | .connectError msg => .error (.sdk (.connectionError msg))
  | .timeoutException => .error (.sdk (.timeoutError timeout_ms))
  | .otherException desc => .error (.raw desc)

/-- Whether a request result is a typed value or a classified error of
the taxonomy, as opposed to a raw uncaught exception. -/
def isClassified : Except PyExc JsonBody → Bool
  | .ok _ => true
  | .error (.sdk _) => true
  | .error _ => false

/-- Transport outcomes on which the exception handling of `_request` is
complete: a caught transport failure, or a response whose success body
parses and whose 429 `Retry-After` header (when present and non-empty)
is numeric. -/
def wellBehaved : TransportOutcome → Bool
  | .response r =>
    (!is_success r.status_code || r.body.isSome)
      && (!(r.status_code == 429)
          || match r.retry_after with
             | none => true
             | some s => s == "" || (pyInt s).isSome)
  | .connectError _ => true
  | .timeoutException => true
  | .otherException _ => false

/-- The status values `wait_for_completion` treats as terminal
(client.py:286). -/
def terminalStatusValues : List String := ["completed", "failed", "cancelled"]

/-- Outcome of `ExecutionsAPI.wait_for_completion`: the returned
execution together with the number of polls issued and the elapsed
time (in seconds, under the idealised clock), or a raised
`TimeoutError(timeout * 1000)` with the elapsed time at the raise. -/
inductive WaitResult where
  | completed (execution : Execution) (polls : Nat) (elapsed : Nat)
  | timedOut (timeout_ms : Nat) (elapsed : Nat)
deriving DecidableEq

/-- The loop of `ExecutionsAPI.wait_for_completion` (client.py:280-291)
at elapsed time `k`: while the elapsed time is below the timeout, poll
a snapshot; return it if its status value is terminal, else sleep one
interval and retry; when the guard fails, raise
`TimeoutError(timeout * 1000)`. `snaps k` is the snapshot returned by
the GET issued at elapsed time `k`. -/
def waitFrom (snaps : Nat → Execution) (timeout : Nat) (k : Nat) : WaitResult :=
  if h : k < timeout then
    let execution := snaps k
    if execution.status.value ∈ terminalStatusValues then .completed execution (k + 1) k
    else waitFrom snaps timeout (k + 1)
  else .timedOut (timeout * 1000) k
termination_by timeout - k

/-- Method `ExecutionsAPI.wait_for_completion` (client.py:262-291). -/
def wait_for_completion (snaps : Nat → Execution) (timeout : Nat) : WaitResult :=
  waitFrom snaps timeout 0

/-- The f-string path of `ExecutionsAPI.get` (client.py:259). -/
def executions_get_path (execution_id : String) : String :=
  "/executions/" ++ execution_id

/-- Class `ExecutionHandle` (types.py:119-147) with its bound closures
re-expressed as the data they capture: `get_status` captures the
execution id and issues a GET on `executions_get_path`; the wait
closure captures the execution id and the `wait_timeout` of the
execute/run call; the stream closure captures the execution id (with
the default `from_index = 0`). -/
structure ExecutionHandle where
  id : String
  status_path : String
  wait_exec_id : String
  wait_fallback : Nat
  stream_exec_id : String
deriving DecidableEq

/-- Python `timeout or wait_timeout` (client.py:187): `None` and `0`
are falsy, so both select the captured fallback. -/
def pyOrNat (t : Option Nat) (fb : Nat) : Nat :=
  match t with
  | none => fb
  | some n => if n = 0 then fb else n

/-- Method `ExecutionHandle.wait` (types.py:138-140) via the bound closure of
client.py:186-188: delegate to `wait_for_completion` with
`timeout or wait_timeout`. -/
def handle_wait (h : ExecutionHandle) (timeout : Option Nat) (snaps : Nat → Execution) :
    WaitResult :=
  wait_for_completion snaps (pyOrNat timeout h.wait_fallback)

/-- The transport response to `POST /flows/{id}/execute` or
`POST /blocks/{id}/run`, projected to the one key the code reads:
`response["executionId"]` (`none` models the key being absent, on
which the subscript raises `KeyError`). -/
structure ExecuteResponse where
  executionId : Option String := none
deriving DecidableEq

/-- Result of `FlowsAPI.execute` / `BlocksAPI.run`. -/
inductive ExecuteResult where
  | ok (h : ExecutionHandle)
  | exc (e : PyExc)
deriving DecidableEq

/-- The `ExecutionHandle(...)` construction of client.py:183-190. -/
def mkHandle (execution_id : String) (wait_timeout : Nat) : ExecutionHandle :=
  { id := execution_id
    status_path := executions_get_path execution_id
    wait_exec_id := execution_id
    wait_fallback := wait_timeout
    stream_exec_id := execution_id }

/-- Method `FlowsAPI.execute` (client.py:156-195) after the POST succeeded
with `response`: read `response["executionId"]`, build the handle, and
when `wait` is set call `handle.wait(wait_timeout)` before returning —
a `TimeoutError` raised by that wait propagates and the handle is not
returned. -/
def flows_execute (response : ExecuteResponse) (wait : Bool) (wait_timeout : Nat)
    (snaps : Nat → Execution) : ExecuteResult :=
  match response.executionId with
  | none => .exc (.keyError ("executionId"))
  | some execution_id =>
    let handle := mkHandle execution_id wait_timeout
    if wait then
      match handle_wait handle (some wait_timeout) snaps with
      | .completed _ _ _ => .ok handle
      | .timedOut ms _ => .exc (.sdk (.timeoutError (ms : Int)))
    else .ok handle

/-- Method `BlocksAPI.run` (client.py:209-248) after the POST succeeded: the
body is line-for-line the same as `FlowsAPI.execute`. -/
def blocks_run (response : ExecuteResponse) (wait : Bool) (wait_timeout : Nat)
    (snaps : Nat → Execution) : ExecuteResult :=
  match response.executionId with
  | none => .exc (.keyError ("executionId"))
  | some execution_id =>
    let handle := mkHandle execution_id wait_timeout
    if wait then
      match handle_wait handle (some wait_timeout) snaps with
      | .completed _ _ _ => .ok handle
      | .timedOut ms _ => .exc (.sdk (.timeoutError (ms : Int)))
    else .ok handle

/-! Concrete sample data used to evaluate the embedded code on closed
inputs. -/

/-- Sample event with a non-terminal type tag. -/
def evStart : ExecutionEvent :=
  { type := "node_start", execution_id := "exec-2", node_id := some ("n1"), index := 0 }

/-- Second sample event with a non-terminal type tag. -/
def evMid : ExecutionEvent :=
  { type := "node_complete", execution_id := "exec-2", node_id := some ("n1"), index := 1 }

/-- Sample event whose type tag is the completion marker. -/
def evFinish : ExecutionEvent :=
  { type := "execution_complete", execution_id := "exec-2", index := 2 }

/-- A concrete payload decoder standing for the JSON library on a small
vocabulary: three payloads decoding to the sample events, one payload
that is valid JSON but not an event shape (pydantic raises), and
everything else invalid JSON. -/
def exDecode : String → DecodeResult := fun s =>
  if s = "EV0" then .ok evStart
  else if s = "EV1" then .ok evMid
  else if s = "EV2" then .ok evFinish
  else if s = "BADSHAPE" then .shapeError
  else .jsonError

/-- A successful streaming response: two events, a completion event,
then two further lines the server sent after the terminal event. -/
def streamRespTerminal : StreamResponse :=
  { status_code := 200, reason_phrase := "OK",
    lines := ["data: EV0", "data: EV1", "data: EV2", "data: EV0", "noise"] }

/-- A successful streaming response with a valid-JSON, wrong-shape line
between two valid events. -/
def streamRespMalformed : StreamResponse :=
  { status_code := 200, reason_phrase := "OK",
    lines := ["data: EV0", "data: BADSHAPE", "data: EV1"] }

/-- A successful streaming response ending in the sentinel line. -/
def streamRespSentinel : StreamResponse :=
  { status_code := 200, reason_phrase := "OK",
    lines := ["data: EV0", "data: EV1", "data: [DONE]"] }

/-- A snapshot that never terminates. -/
def execRunning : Execution := { id := "exec-3", status := .running }

/-- A snapshot that is already terminal. -/
def execDone : Execution := { id := "exec-3", status := .completed }

/-- A concrete 500 response with a parsed error body. -/
def r500 : Response :=
  { status_code := 500, reason_phrase := "Internal Server Error",
    body := some { error := some ("boom"), details := some ("ctx") } }

/-- A concrete 429 response whose Retry-After header is present but not
numeric. -/
def r429bad : Response :=
  { status_code := 429, reason_phrase := "Too Many Requests",
    body := some {}, retry_after := some ("tomorrow") }

/-- A concrete 200 response whose body is not valid JSON. -/
def r200bad : Response :=
  { status_code := 200, reason_phrase := "OK", body := none }

/-- A concrete connect failure outcome. -/
def toConnRefused : TransportOutcome := .connectError ("connection refused")

/-- A concrete execute/run response carrying an execution id. -/
def execRespOk : ExecuteResponse := { executionId := some ("exec-1") }

/-! Theorems. -/

/-- Helper: the async line loop computes the same function as the
blocking line loop. -/
theorem streamLoopAsync_eq_streamLoop (decode : String → DecodeResult) :
    ∀ lines : List String, streamLoopAsync decode lines = streamLoop decode lines := by
  intro lines
  induction lines with
  | nil => rfl
  | cons line rest ih =>
    simp only [streamLoopAsync, streamLoop, ih]

/-- C3: for every input line sequence (and stream-open status), the
blocking variant `stream` and the cooperatively-suspending variant
`stream_async` produce the same sequence of events and terminate under
the same conditions. -/
theorem stream_async_eq_stream (decode : String → DecodeResult) (resp : StreamResponse) :
    stream_async decode resp = stream decode resp := by
  unfold stream_async stream
  rw [streamLoopAsync_eq_streamLoop]

/-- Helper: a prefix of decodable, non-sentinel, non-terminal event
lines passes its events through, and the loop continues on the suffix. -/
theorem streamLoop_append (decode : String → DecodeResult)
    (pre : List (String × ExecutionEvent)) (suffix : List String)
    (hpre : ∀ p ∈ pre, encodesEvent decode p.1 p.2 ∧ p.2.type ∉ terminalEventTypes) :
    streamLoop decode (pre.map Prod.fst ++ suffix) =
      match streamLoop decode suffix with
      | .events evs => .events (pre.map Prod.snd ++ evs)
      | .raised evs exc => .raised (pre.map Prod.snd ++ evs) exc := by
  induction pre with
  | nil =>
    simp only [List.map_nil, List.nil_append]
    cases streamLoop decode suffix <;> rfl
  | cons p pre ih =>
    obtain ⟨⟨h1, h2, h3⟩, hnt⟩ := hpre p (List.mem_cons_self p pre)
    have ih := ih (fun q hq => hpre q (List.mem_cons_of_mem p hq))
    simp only [List.map_cons, List.cons_append, streamLoop, h1, if_true, h3, List.append_eq]
    rw [if_neg h2, if_neg hnt, ih]
    cases streamLoop decode suffix <;> rfl

/-- C1: for a well-formed server stream of events e1..en followed by an
event whose type tag is the completion marker or the error marker,
`stream` produces exactly e1..en plus that terminal event, and no
further items are produced afterward even if more lines follow on the
connection. -/
theorem stream_stops_after_terminal_event (decode : String → DecodeResult)
    (resp : StreamResponse) (pre : List (String × ExecutionEvent))
    (tline : String) (t : ExecutionEvent) (rest : List String)
    (hok : is_success resp.status_code = true)
    (hlines : resp.lines = pre.map Prod.fst ++ tline :: rest)
    (hpre : ∀ p ∈ pre, encodesEvent decode p.1 p.2 ∧ p.2.type ∉ terminalEventTypes)
    (ht : encodesEvent decode tline t)
    (htt : t.type ∈ terminalEventTypes) :
    stream decode resp = .events (pre.map Prod.snd ++ [t]) := by
  obtain ⟨h1, h2, h3⟩ := ht
  unfold stream
  rw [hok, if_pos rfl, hlines, streamLoop_append decode pre (tline :: rest) hpre]
  simp only [streamLoop, h1, if_true, h3]
  rw [if_neg h2, if_pos htt]

/-- Witness for C1: a five-line connection with two events, a
completion event and two further lines yields exactly the three
events. -/
theorem stream_stops_after_terminal_event_witness :
    stream exDecode streamRespTerminal = .events [evStart, evMid, evFinish] :=
  stream_stops_after_terminal_event exDecode streamRespTerminal
    [(("data: EV0"), evStart), (("data: EV1"), evMid)] ("data: EV2") evFinish
    [("data: EV0"), ("noise")]
    (by decide) (by decide) (by decide) (by decide) (by decide)

/-- C6: a stream ending with a data-prefixed line whose payload is the
literal sentinel yields only the events decoded before the sentinel,
produces no event for the sentinel line itself, and terminates cleanly
without raising. -/
theorem stream_sentinel_clean_end (decode : String → DecodeResult)
    (resp : StreamResponse) (pre : List (String × ExecutionEvent)) (sline : String)
    (hok : is_success resp.status_code = true)
    (hlines : resp.lines = pre.map Prod.fst ++ [sline])
    (hpre : ∀ p ∈ pre, encodesEvent decode p.1 p.2 ∧ p.2.type ∉ terminalEventTypes)
    (hs1 : pyStartswith sline dataTag = true)
    (hs2 : pyDrop sline 6 = doneSentinel) :
    stream decode resp = .events (pre.map Prod.snd) := by
  unfold stream
  rw [hok, if_pos rfl, hlines, streamLoop_append decode pre [sline] hpre]
  simp only [streamLoop, hs1, if_true, hs2]
  simp

/-- Witness for C6: two events then the sentinel line yield exactly the
two events with a clean end. -/
theorem stream_sentinel_clean_end_witness :
    stream exDecode streamRespSentinel = .events [evStart, evMid] :=
  stream_sentinel_clean_end exDecode streamRespSentinel
    [(("data: EV0"), evStart), (("data: EV1"), evMid)] ("data: [DONE]")
    (by decide) (by decide) (by decide) (by decide) (by decide)

/-- C2 fails on the code: a data line whose payload is valid JSON but
not an event shape is not skipped — the `except` clause of
client.py:337 catches only `json.JSONDecodeError`, so the pydantic
error aborts the stream after the earlier events; the valid event
after the malformed line is never yielded and the consumer observes an
exception. -/
theorem stream_malformed_shape_aborts :
    stream exDecode streamRespMalformed = .raised [evStart] .validationError ∧
      ∀ evs : List ExecutionEvent, stream exDecode streamRespMalformed ≠ .events evs := by
  have he : stream exDecode streamRespMalformed = .raised [evStart] .validationError := by
    decide
  exact ⟨he, fun evs h => StreamOutcome.noConfusion (he.symm.trans h)⟩

/-- Helper: when every snapshot is non-terminal, the poll loop runs its
guard down to the deadline and raises with elapsed time equal to the
timeout. -/
theorem waitFrom_nonterminal (snaps : Nat → Execution) (T : Nat)
    (h : ∀ j, (snaps j).status.value ∉ terminalStatusValues) :
    ∀ n k, T - k = n → k ≤ T → waitFrom snaps T k = .timedOut (T * 1000) T := by
  intro n
  induction n with
  | zero =>
    intro k hn hk
    have hkT : k = T := by omega
    subst hkT
    rw [waitFrom]
    simp
  | succ m ih =>
    intro k hn hk
    have hkT : k < T := by omega
    rw [waitFrom]
    rw [dif_pos hkT, if_neg (h k)]
    exact ih (k + 1) (by omega) (by omega)

/-- C4: if every polled snapshot is non-terminal,
`wait_for_completion(executionId, T)` raises TimeoutError after elapsed
time at least T and less than T plus one poll interval, and the raised
TimeoutError records T * 1000 milliseconds. -/
theorem wait_times_out_when_nonterminal (snaps : Nat → Execution) (T : Nat)
    (h : ∀ j, (snaps j).status.value ∉ terminalStatusValues) :
    ∃ elapsed, wait_for_completion snaps T = .timedOut (T * 1000) elapsed ∧
      T ≤ elapsed ∧ elapsed < T + 1 := by
  refine ⟨T, ?_, le_refl T, by omega⟩
  exact waitFrom_nonterminal snaps T h T 0 (by omega) (by omega)

/-- Witness for C4: a permanently running execution with a three-second
timeout raises TimeoutError carrying 3000 ms at elapsed time three. -/
theorem wait_times_out_when_nonterminal_witness :
    ∃ elapsed, wait_for_completion (fun _ => execRunning) 3 = .timedOut 3000 elapsed ∧
      3 ≤ elapsed ∧ elapsed < 4 :=
  wait_times_out_when_nonterminal (fun _ => execRunning) 3
    (fun _ => (by decide : execRunning.status.value ∉ terminalStatusValues))

/-- C5: when the very first polled snapshot is already terminal,
`wait_for_completion` returns that snapshot after exactly one poll and
zero sleeps. -/
theorem wait_returns_on_first_terminal_poll (snaps : Nat → Execution) (T : Nat)
    (h1 : (snaps 0).status.value ∈ terminalStatusValues) (h2 : 0 < T) :
    wait_for_completion snaps T = .completed (snaps 0) 1 0 := by
  unfold wait_for_completion
  rw [waitFrom]
  rw [dif_pos h2, if_pos h1]

/-- Witness for C5: an already-completed execution is returned from the
first poll with no sleeping under a five-second timeout. -/
theorem wait_returns_on_first_terminal_poll_witness :
    0 < 5 ∧ wait_for_completion (fun _ => execDone) 5 = .completed execDone 1 0 :=
  ⟨by decide, wait_returns_on_first_terminal_poll (fun _ => execDone) 5 (by decide) (by decide)⟩

/-- C7 (amended): for a non-success response, `_handle_response` raises
the error kind of the status-code table with its documented attached
data — 401 AuthenticationError and 403 PermissionError with the server
message, 404 NotFoundError with the generic resource kind and id, 400
ValidationError with message and optional details, 429 RateLimitError
carrying the integer value of a present numeric Retry-After header and
nothing when the header is absent or empty, and any other status the
generic API error with message, status code and details. (When a 429
carries a present, non-empty, non-numeric Retry-After header, `int`
raises an unclassified ValueError instead; see the counterexample.) -/
theorem handle_response_status_table (r : Response)
    (hns : is_success r.status_code = false) :
    (r.status_code = 401 →
      handle_response r = .error (.sdk (.authenticationError (serverMessage r))))
    ∧ (r.status_code = 403 →
      handle_response r = .error (.sdk (.permissionError (serverMessage r))))
    ∧ (r.status_code = 404 →
      handle_response r = .error (.sdk (.notFoundError ("Resource") ("unknown"))))
    ∧ (r.status_code = 400 →
      handle_response r = .error (.sdk (.validationError (serverMessage r) (serverDetails r))))
    ∧ (r.status_code = 429 → r.retry_after = none →
      handle_response r = .error (.sdk (.rateLimitError none)))
    ∧ (r.status_code = 429 → r.retry_after = some ("") →
      handle_response r = .error (.sdk (.rateLimitError none)))
    ∧ (∀ s n, r.status_code = 429 → r.retry_after = some s → pyInt s = some n →
      handle_response r = .error (.sdk (.rateLimitError (some n))))
    ∧ (r.status_code ≠ 401 → r.status_code ≠ 403 → r.status_code ≠ 404 →
      r.status_code ≠ 400 → r.status_code ≠ 429 →
      handle_response r = .error (.sdk (.baleyUIError (serverMessage r)
        (some r.status_code) (some ("api_error")) (serverDetails r)))) := by
  refine ⟨?_, ?_, ?_, ?_, ?_, ?_, ?_, ?_⟩
  · intro h; simp [handle_response, h, (by decide : is_success 401 = false)]
  · intro h; simp [handle_response, h, (by decide : is_success 403 = false)]
  · intro h; simp [handle_response, h, (by decide : is_success 404 = false)]
  · intro h; simp [handle_response, h, (by decide : is_success 400 = false)]
  · intro h hra
    simp [handle_response, h, hra, (by decide : is_success 429 = false)]
  · intro h hra
    simp [handle_response, h, hra, (by decide : is_success 429 = false)]
  · intro s n h hra hn
    have hse : s ≠ "" := by
      intro he
      rw [he, (by decide : pyInt ("") = (none : Option Int))] at hn
      exact Option.noConfusion hn
    simp [handle_response, h, hra, hse, hn, (by decide : is_success 429 = false)]
  · intro h401 h403 h404 h400 h429
    have hs : is_success r.status_code = true → False := by
      intro htrue
      rw [hns] at htrue
      exact Bool.noConfusion htrue
    simp [handle_response, h401, h403, h404, h400, h429, hns]

/-- Witness for C7 at a concrete 500 response with a parsed error body:
the generic API error with the server message, the status code, the
api_error code and the details. -/
theorem handle_response_status_table_witness :
    is_success 500 = false ∧
      handle_response r500 = .error (.sdk (.baleyUIError ("boom") (some 500)
        (some ("api_error")) (some ("ctx")))) :=
  ⟨by decide,
    (handle_response_status_table r500 (by decide)).2.2.2.2.2.2.2
      (by decide) (by decide) (by decide) (by decide) (by decide)⟩

/-- C7 counterexample: a 429 response whose Retry-After header is
present but not numeric makes `int(retry_after)` raise an unclassified
ValueError — no RateLimitError is raised, so the claim as stated fails
at this input. -/
theorem handle_response_429_nonnumeric :
    handle_response r429bad = .error .valueError ∧
      ∀ n : Option Int, handle_response r429bad ≠ .error (.sdk (.rateLimitError n)) := by
  have he : handle_response r429bad = .error .valueError := by decide
  refine ⟨he, fun n h => ?_⟩
  rw [he] at h
  simp at h

/-- C8 (amended): a public request either returns a typed body or
raises one classified taxonomy error, provided the transport failure
is one of the two caught exception kinds and the response is
well-behaved (a success body that parses, and a numeric or
empty-or-absent Retry-After on 429). Outside those conditions a raw
exception reaches the caller; see the counterexample. -/
theorem request_classified_when_wellBehaved (timeout_ms : Int) (o : TransportOutcome)
    (h : wellBehaved o = true) :
    isClassified (pyRequest timeout_ms o) = true := by
  cases o with
  | connectError msg => rfl
  | timeoutException => rfl
  | otherException d => exact absurd h (by simp [wellBehaved])
  | response r =>
    show isClassified (handle_response r) = true
    by_cases hs : is_success r.status_code = true
    · have hb : r.body.isSome = true := by
        simp only [wellBehaved, hs, Bool.not_true, Bool.false_or, Bool.and_eq_true] at h
        exact h.1
      obtain ⟨b, hbody⟩ := Option.isSome_iff_exists.mp hb
      simp [handle_response, hs, hbody, isClassified]
    · have hns : is_success r.status_code = false := by
        cases hval : is_success r.status_code
        · rfl
        · exact absurd hval hs
      by_cases h429 : r.status_code = 429
      · cases hra : r.retry_after with
        | none =>
          simp [handle_response, hns, h429, hra, isClassified,
            (by decide : is_success 429 = false)]
        | some str =>
          by_cases hse : str = ""
          · simp [handle_response, hns, h429, hra, hse, isClassified,
              (by decide : is_success 429 = false)]
          · have hip : (pyInt str).isSome = true := by
              simp [wellBehaved, hns, h429, hra, hse] at h
              exact h.2
            obtain ⟨n, hn⟩ := Option.isSome_iff_exists.mp hip
            simp [handle_response, hns, h429, hra, hse, hn, isClassified,
              (by decide : is_success 429 = false)]
      · simp only [handle_response, hns, Bool.false_eq_true, if_false]
        split_ifs <;> rfl

/-- Witness for C8 at a concrete caught transport failure: a connect
error maps to the classified ConnectionError. -/
theorem request_classified_when_wellBehaved_witness :
    wellBehaved toConnRefused = true ∧
      isClassified (pyRequest 30000 toConnRefused) = true :=
  ⟨by decide, request_classified_when_wellBehaved 30000 toConnRefused (by decide)⟩

/-- C8 counterexample: a success response whose body is not valid JSON
makes `response.json()` raise `json.JSONDecodeError` (client.py:115),
which nothing classifies — a raw exception reaches the caller, so the
claim as stated fails at this input. -/
theorem request_success_body_unparsed_raw :
    pyRequest 30000 (.response r200bad) = .error .jsonDecodeError ∧
      isClassified (pyRequest 30000 (.response r200bad)) = false := by
  exact ⟨by decide, by decide⟩

/-- Helper: whenever the poll loop returns an execution, that execution
has a terminal status value. -/
theorem waitFrom_terminal_of_completed (snaps : Nat → Execution) (T : Nat) :
    ∀ n k e p el, T - k = n → waitFrom snaps T k = .completed e p el →
      e.status.value ∈ terminalStatusValues := by
  intro n
  induction n with
  | zero =>
    intro k e p el hn hw
    have hk : ¬k < T := by omega
    rw [waitFrom, dif_neg hk] at hw
    exact WaitResult.noConfusion hw
  | succ m ih =>
    intro k e p el hn hw
    have hk : k < T := by omega
    rw [waitFrom, dif_pos hk] at hw
    by_cases ht : (snaps k).status.value ∈ terminalStatusValues
    · rw [if_pos ht] at hw
      injection hw with h1 h2 h3
      exact h1 ▸ ht
    · rw [if_neg ht] at hw
      exact ih (k + 1) e p el (by omega) hw

/-- Helper: the effective timeout of the bound wait closure is the
captured fallback exactly when the argument is falsy. -/
theorem handle_wait_eq_on_mkHandle (eid : String) (wt : Nat) (s : Nat → Execution) :
    handle_wait (mkHandle eid wt) (some wt) s = wait_for_completion s wt := by
  simp [handle_wait, mkHandle, pyOrNat]

/-- Helper: a handle returned by `flows_execute` is exactly the handle
built from the execution id of the response with the captured
`wait_timeout`. -/
theorem flows_execute_ok_handle (resp : ExecuteResponse) (wait : Bool) (wt : Nat)
    (snaps : Nat → Execution) (hdl : ExecutionHandle)
    (hok : flows_execute resp wait wt snaps = .ok hdl) :
    ∃ eid, resp.executionId = some eid ∧ hdl = mkHandle eid wt := by
  cases hid : resp.executionId with
  | none => simp [flows_execute, hid] at hok
  | some eid =>
    refine ⟨eid, rfl, ?_⟩
    simp only [flows_execute, hid] at hok
    cases wait with
    | false =>
      simp only [Bool.false_eq_true, if_false] at hok
      exact (ExecuteResult.ok.inj hok).symm
    | true =>
      simp only [if_true] at hok
      cases hwr : handle_wait (mkHandle eid wt) (some wt) snaps with
      | completed e p el =>
        rw [hwr] at hok
        exact (ExecuteResult.ok.inj hok).symm
      | timedOut ms el =>
        rw [hwr] at hok
        exact ExecuteResult.noConfusion hok

/-- C9: for a successful execute/run response carrying an executionId,
any returned handle has that id and its status-fetch accessor issues
GET on the /executions/{id} path; when synchronous waiting was
requested, the internal wait ran before returning — so either the wait
returned a terminal snapshot and the handle is returned, or the raised
TimeoutError propagates and no handle is returned. `blocks_run`
behaves identically. -/
theorem execute_handle_contract (resp : ExecuteResponse) (wait : Bool) (wt : Nat)
    (snaps : Nat → Execution) (eid : String)
    (hid : resp.executionId = some eid) :
    (∀ hdl, flows_execute resp wait wt snaps = .ok hdl →
      hdl.id = eid ∧ hdl.status_path = executions_get_path eid)
    ∧ (wait = true →
        (∃ e p el, wait_for_completion snaps wt = .completed e p el ∧
          e.status.value ∈ terminalStatusValues ∧
          flows_execute resp wait wt snaps = .ok (mkHandle eid wt))
        ∨ (∃ ms el, wait_for_completion snaps wt = .timedOut ms el ∧
          flows_execute resp wait wt snaps = .exc (.sdk (.timeoutError (ms : Int)))))
    ∧ blocks_run resp wait wt snaps = flows_execute resp wait wt snaps := by
  refine ⟨?_, ?_, rfl⟩
  · intro hdl hok
    obtain ⟨eid2, hid2, hmk⟩ := flows_execute_ok_handle resp wait wt snaps hdl hok
    rw [hid] at hid2
    injection hid2 with heq
    subst heq
    subst hmk
    exact ⟨rfl, rfl⟩
  · intro hw
    subst hw
    cases hwr : wait_for_completion snaps wt with
    | completed e p el =>
      left
      refine ⟨e, p, el, rfl, ?_, ?_⟩
      · exact waitFrom_terminal_of_completed snaps wt wt 0 e p el (by omega) hwr
      · simp only [flows_execute, hid, if_true]
        rw [handle_wait_eq_on_mkHandle, hwr]
    | timedOut ms el =>
      right
      refine ⟨ms, el, rfl, ?_⟩
      simp only [flows_execute, hid, if_true]
      rw [handle_wait_eq_on_mkHandle, hwr]

/-- Witness for C9: a fire-and-forget execute whose response carries
exec-1 returns the handle with id exec-1 and the GET path
/executions/exec-1. -/
theorem execute_handle_contract_witness :
    (mkHandle ("exec-1") 300).id = ("exec-1") ∧
      (mkHandle ("exec-1") 300).status_path = executions_get_path ("exec-1") :=
  (execute_handle_contract execRespOk false 300 (fun _ => execDone) ("exec-1") rfl).1
    (mkHandle ("exec-1") 300) rfl

/-- C10: for a handle produced by `flows_execute` or `blocks_run`, the
wait accessor called with timeout None — and equally with timeout 0,
through the falsy `or` fallback — delegates to `wait_for_completion`
with the `wait_timeout` captured at the execute/run call; the
effective timeout is zero only when the captured value itself is
zero, so a zero-second wait cannot be requested through the handle
argument. -/
theorem handle_wait_truthiness (resp : ExecuteResponse) (wait : Bool) (wt : Nat)
    (snaps : Nat → Execution) (hdl : ExecutionHandle)
    (hok : flows_execute resp wait wt snaps = .ok hdl ∨
      blocks_run resp wait wt snaps = .ok hdl) :
    hdl.wait_fallback = wt
    ∧ (∀ s, handle_wait hdl none s = wait_for_completion s wt)
    ∧ (∀ s, handle_wait hdl (some 0) s = wait_for_completion s wt)
    ∧ (∀ t, pyOrNat t hdl.wait_fallback = 0 → wt = 0) := by
  have hfe : flows_execute resp wait wt snaps = .ok hdl := by
    rcases hok with h | h
    · exact h
    · exact h
  obtain ⟨eid, hid2, hmk⟩ := flows_execute_ok_handle resp wait wt snaps hdl hfe
  subst hmk
  refine ⟨rfl, fun s => rfl, fun s => rfl, ?_⟩
  intro t h0
  cases t with
  | none => exact h0
  | some n =>
    by_cases hn : n = 0
    · rw [hn] at h0
      simpa [pyOrNat, mkHandle] using h0
    · simp [pyOrNat, mkHandle, hn] at h0

/-- Witness for C10 at the handle of a concrete fire-and-forget
execute: waiting with None or 0 uses the captured 300-second timeout. -/
theorem handle_wait_truthiness_witness :
    (mkHandle ("exec-1") 300).wait_fallback = 300
    ∧ (∀ s, handle_wait (mkHandle ("exec-1") 300) none s = wait_for_completion s 300)
    ∧ (∀ s, handle_wait (mkHandle ("exec-1") 300) (some 0) s = wait_for_completion s 300)
    ∧ (∀ t, pyOrNat t (mkHandle ("exec-1") 300).wait_fallback = 0 → 300 = 0) :=
  handle_wait_truthiness execRespOk false 300 (fun _ => execDone)
    (mkHandle ("exec-1") 300) (Or.inl rfl)

end Baleyui
